import Mathlib

/-!
Shallow embedding of the service worker `src/sw.js`.

The worker owns one versioned cache namespace (`CACHE_NAME`) inside the
browser's cache storage.  We model the cache storage as an ordered
association list of named caches (the order is creation order, which is
the order `caches.match` consults), each cache as an ordered association
list from request identity (URL string) to a stored response snapshot.

Event handlers become pure state-passing functions:
  - `installHandler`  models the `install` listener (lines 23-48 of sw.js),
  - `activateHandler` models the `activate` listener (lines 51-67),
  - `handleFetch`     models the `fetch` listener (lines 70-131),
  - `handleMessage`   models the `message` listener (lines 134-138).
The network is an explicit environment mapping a request (or a URL, for
install-time fetches) to either a response or a failure.  Promise
rejections escaping a handler are represented by the `reject` outcome;
a handler promise that resolves with `undefined` (no `Response` object)
is the `respondUndefined` outcome.
-/

/-- The `type` attribute of a fetch `Response`
(basic / cors / default / error / opaque / opaqueredirect). -/
inductive ResponseType
  | basic
  | cors
  | defaultType
  | errorType
  | opaqueType
  | opaqueRedirect
deriving DecidableEq

/-- A fetch `Response` object, with the attributes the worker reads
(`status`, `ok`, `type`) plus the remaining observable payload
(`redirected` flag, headers, body). -/
structure Response where
  status : Nat
  type : ResponseType
  redirected : Bool
  headers : List (String × String)
  body : String
deriving DecidableEq

/-- `Response.ok`: derived from the status exactly as the platform defines
it (status in the inclusive range 200-299). -/
def Response.ok (r : Response) : Bool :=
  decide (200 ≤ r.status ∧ r.status ≤ 299)

/-- `response.clone()`: in the model a snapshot copy is the value itself. -/
def Response.clone (r : Response) : Response := r

/-- An intercepted request: its URL (the request identity used as cache
key), the parsed URL's pathname (`new URL(request.url).pathname`), the
method, and the value of `request.headers.get('accept')` (`none` models
the `null` returned for an absent header). -/
structure Request where
  url : String
  pathname : String
  method : String
  accept : Option String
deriving DecidableEq

/-- Outcome of a network fetch: a response, or a rejection of the fetch
promise (network failure). -/
inductive FetchOutcome
  | success (r : Response)
  | failure
deriving DecidableEq

/-- A JavaScript error value escaping a handler promise. -/
inductive JsError
  | typeError
  | networkError
deriving DecidableEq

/-- What the fetch event listener does with an intercepted request:
no interception at all (`passThrough`, default browser handling), a
response passed to `respondWith`, a handler promise that resolved with
`undefined` (no response), or a handler promise that rejected. -/
inductive FetchHandlerOutcome
  | passThrough
  | respond (r : Response)
  | respondUndefined
  | reject (e : JsError)
deriving DecidableEq

/-- Whether a fetch handler outcome is a rejected handler promise. -/
def FetchHandlerOutcome.isRejection : FetchHandlerOutcome → Bool
  | .reject _ => true
  | _ => false

/-- Does the character list `s` start with the character list `p`
(JavaScript `String.prototype.startsWith`, spelled out on characters so
the kernel can evaluate it)? -/
def charsStartWith : List Char → List Char → Bool
  | _, [] => true
  | [], _ :: _ => false
  | a :: as, b :: bs => decide (a = b) && charsStartWith as bs

/-- `s.startsWith(p)` on strings. -/
def strStartsWith (s p : String) : Bool :=
  charsStartWith s.data p.data

/-- Does the character list `s` contain the character list `p` as a
contiguous substring (JavaScript `String.prototype.includes`)? -/
def charsContains : List Char → List Char → Bool
  | [], p => charsStartWith [] p
  | s :: rest, p => charsStartWith (s :: rest) p || charsContains rest p

/-- `s.includes(p)` on strings. -/
def jsIncludes (s p : String) : Bool :=
  charsContains s.data p.data

/-- `headers.get(k)` on a header list (exact-name lookup; the worker only
ever uses one spelling per header). -/
def headersGet : List (String × String) → String → Option String
  | [], _ => none
  | h :: rest, k => if h.1 = k then some h.2 else headersGet rest k

/-- One named cache: ordered entries from request identity to response. -/
abbrev Cache := List (String × Response)

/-- The cache storage: named caches in creation order. -/
abbrev CacheStorage := List (String × Cache)

/-- `cache.match(key)`: first entry stored under `key`. -/
def cacheMatch : Cache → String → Option Response
  | [], _ => none
  | e :: rest, key => if e.1 = key then some e.2 else cacheMatch rest key

/-- `cache.put(key, r)`: overwrite the entry under `key`, or append a new
entry. -/
def cachePut : Cache → String → Response → Cache
  | [], key, r => [(key, r)]
  | e :: rest, key, r =>
    if e.1 = key then (key, r) :: rest else e :: cachePut rest key r

/-- Look a named cache up in the storage. -/
def cachesGet : CacheStorage → String → Option Cache
  | [], _ => none
  | e :: rest, name => if e.1 = name then some e.2 else cachesGet rest name

/-- `caches.open(name)`: create the named cache (empty) if absent. -/
def cachesOpen : CacheStorage → String → CacheStorage
  | [], name => [(name, [])]
  | e :: rest, name => if e.1 = name then e :: rest else e :: cachesOpen rest name

/-- Replace the contents of the named cache (creating it if absent). -/
def cachesSet : CacheStorage → String → Cache → CacheStorage
  | [], name, c => [(name, c)]
  | e :: rest, name, c =>
    if e.1 = name then (name, c) :: rest else e :: cachesSet rest name c

/-- `caches.open(name).then(cache => cache.put(key, r))` as one step. -/
def cachesPut : CacheStorage → String → String → Response → CacheStorage
  | [], name, key, r => [(name, cachePut [] key r)]
  | e :: rest, name, key, r =>
    if e.1 = name then (e.1, cachePut e.2 key r) :: rest
    else e :: cachesPut rest name key r

/-- `caches.delete(name)`: remove the named cache. -/
def cachesDelete : CacheStorage → String → CacheStorage
  | [], _ => []
  | e :: rest, name =>
    if e.1 = name then cachesDelete rest name else e :: cachesDelete rest name

/-- `caches.keys()`: the namespace names, in creation order. -/
def cachesKeys (cs : CacheStorage) : List String :=
  cs.map (fun e => e.1)

/-- `caches.match(key)`: search every cache, in creation order, and
return the first hit. -/
def cachesMatch : CacheStorage → String → Option Response
  | [], _ => none
  | e :: rest, key =>
    match cacheMatch e.2 key with
    | some r => some r
    | none => cachesMatch rest key

/-- Lookup restricted to one named cache of the storage. -/
def cacheNSMatch (cs : CacheStorage) (name key : String) : Option Response :=
  match cachesGet cs name with
  | some c => cacheMatch c key
  | none => none

/-- `const CACHE_NAME = 'anti333-cache-v2'` (sw.js line 1). -/
def CACHE_NAME : String := "anti333-cache-v2"

/-- `const STATIC_ASSETS = [...]` (sw.js lines 2-11). -/
def STATIC_ASSETS : List String :=
  ["/",
   "/index.html",
   "/manifest.json",
   "/favicon-32.ico",
   "/favicon-96.png",
   "/apple-touch-icon.png",
   "/icon-192.png",
   "/icon-512.png"]

/-- `const EXTERNAL_ASSETS = [...]` (sw.js lines 13-20). -/
def EXTERNAL_ASSETS : List String :=
  ["https://cdnjs.cloudflare.com/ajax/libs/mammoth/1.6.0/mammoth.browser.min.js",
   "https://unpkg.com/docx@8.5.0/build/index.umd.js",
   "https://cdnjs.cloudflare.com/ajax/libs/FileSaver.js/2.0.5/FileSaver.min.js",
   "https://cdnjs.cloudflare.com/ajax/libs/pdf.js/3.11.174/pdf.min.js",
   "https://cdnjs.cloudflare.com/ajax/libs/pdf.js/3.11.174/pdf.worker.min.js",
   "https://cdnjs.cloudflare.com/ajax/libs/jspdf/2.5.1/jspdf.umd.min.js"]

/-- The localized offline message of the API branch (sw.js line 82). -/
def OFFLINE_MESSAGE : String := "Offline. Проверьте подключение к интернету."

/-- `JSON.stringify(\x7b error: msg \x7d)`. -/
def jsonErrorBody (msg : String) : String :=
  "\x7b\"error\":\"" ++ msg ++ "\"\x7d"

/-- The substitute response synthesized by the API branch on network
failure (sw.js lines 81-88): status 503, JSON content type, JSON body
carrying the offline message.  A constructed response has type `default`
and is not redirected. -/
def apiOfflineResponse : Response :=
  { status := 503,
    type := ResponseType.defaultType,
    redirected := false,
    headers := [("Content-Type", "application/json")],
    body := jsonErrorBody OFFLINE_MESSAGE }

/-- Did a fetch settle with an `ok` response? -/
def fetchOk : FetchOutcome → Bool
  | .success r => r.ok
  | .failure => false

/-- `cache.addAll(urls)` (sw.js line 30): atomic bulk fetch-and-store —
every URL is fetched; if any fetch rejects or yields a non-ok response
the whole operation rejects and stores nothing, otherwise every response
is stored under its URL. -/
def addAll (net : String → FetchOutcome) (c : Cache) (urls : List String) : Option Cache :=
  if urls.all (fun u => fetchOk (net u)) then
    some (urls.foldl
      (fun acc u =>
        match net u with
        | .success r => cachePut acc u r
        | .failure => acc)
      c)
  else none

/-- One element of the `Promise.allSettled` array of the install handler
(sw.js lines 33-41): fetch the external URL; on an ok response put it in
the current cache; a non-ok response is dropped; a rejection is caught
and only logged. -/
def externalStep (net : String → FetchOutcome) (cs : CacheStorage) (url : String) : CacheStorage :=
  match net url with
  | .success r => if r.ok then cachesPut cs CACHE_NAME url r else cs
  | .failure => cs

/-- Result of the install handler: whether the install step succeeded,
the cache storage after all work settled, and the network fetches issued
(in order). -/
structure InstallResult where
  success : Bool
  caches : CacheStorage
  fetched : List String
deriving DecidableEq

/-- The `install` listener (sw.js lines 23-48): open the current
namespace, `addAll` the static assets (all-or-nothing; its failure fails
the install and nothing further runs), then settle every external asset
attempt independently, then `skipWaiting`. -/
def installHandler (net : String → FetchOutcome) (cs : CacheStorage) : InstallResult :=
  let cs1 := cachesOpen cs CACHE_NAME
  match addAll net ((cachesGet cs1 CACHE_NAME).getD []) STATIC_ASSETS with
  | none =>
    { success := false, caches := cs1, fetched := STATIC_ASSETS }
  | some c1 =>
    { success := true,
      caches := EXTERNAL_ASSETS.foldl (externalStep net) (cachesSet cs1 CACHE_NAME c1),
      fetched := STATIC_ASSETS ++ EXTERNAL_ASSETS }

/-- An observable action of the activate handler, in the order performed. -/
inductive ActEvent
  | deleteCache (name : String)
  | claimClients
deriving DecidableEq

/-- The `activate` listener (sw.js lines 51-67): delete every cache
namespace whose name differs from `CACHE_NAME`, then
`self.clients.claim()`.  Returns the resulting storage and the ordered
list of performed actions. -/
def activateHandler (cs : CacheStorage) : CacheStorage × List ActEvent :=
  let stale := (cachesKeys cs).filter (fun n => n != CACHE_NAME)
  (stale.foldl cachesDelete cs,
   stale.map ActEvent.deleteCache ++ [ActEvent.claimClients])

/-- The background revalidation spawned on a cache hit (sw.js lines
101-109): fetch the request; if the response is ok, put it into the
current namespace under the request identity; any failure is caught and
discarded. -/
def revalidate (net : Request → FetchOutcome) (cs : CacheStorage) (req : Request) : CacheStorage :=
  match net req with
  | .success r => if r.ok then cachesPut cs CACHE_NAME req.url r else cs
  | .failure => cs

/-- The `fetch` listener (sw.js lines 70-131).  Non-GET requests are not
intercepted.  Paths starting with `/api/` are network-only, with a
synthesized 503 substitute on failure.  Everything else is cache-first:
a hit is returned at once and revalidated in the background; a miss goes
to the network, an ok `basic` response is cached, and on network failure
the catch clause consults the `accept` header — reading it on a request
without one is the JavaScript `null.includes` type error. -/
def handleFetch (net : Request → FetchOutcome) (cs : CacheStorage) (req : Request) :
    FetchHandlerOutcome × CacheStorage :=
  if req.method ≠ "GET" then
    (.passThrough, cs)
  else if strStartsWith req.pathname "/api/" then
    match net req with
    | .success r => (.respond r, cs)
    | .failure => (.respond apiOfflineResponse, cs)
  else
    match cachesMatch cs req.url with
    | some cachedResponse =>
      (.respond cachedResponse, revalidate net cs req)
    | none =>
      match net req with
      | .success response =>
        if response.ok ∧ response.type = ResponseType.basic then
          (.respond response, cachesPut cs CACHE_NAME req.url response.clone)
        else
          (.respond response, cs)
      | .failure =>
        match req.accept with
        | none => (.reject JsError.typeError, cs)
        | some accept =>
          if jsIncludes accept "text/html" then
            match cachesMatch cs "/" with
            | some root => (.respond root, cs)
            | none => (.respondUndefined, cs)
          else
            (.respondUndefined, cs)

/-- The `message` listener (sw.js lines 134-138): `skipWaiting` exactly
when the posted data carries type `SKIP_WAITING`.  The argument models
`event.data && event.data.type`. -/
def handleMessage (dataType : Option String) : Bool :=
  match dataType with
  | some t => decide (t = "SKIP_WAITING")
  | none => false

/-- Modelled from the spec's words for the cache-miss store condition:
"a direct, non-opaque, non-redirected same-origin-equivalent result".
Same-origin non-opaque direct means response type `basic`; non-redirected
means the `redirected` flag is clear. -/
def specCacheable (r : Response) : Bool :=
  decide (r.type = ResponseType.basic) && !r.redirected

/-- Modelled from the spec's words for the router's lookup: "Look up the
request identity in the current cache namespace" — a lookup confined to
the `CACHE_NAME` namespace only. -/
def specCurrentOnlyLookup (cs : CacheStorage) (key : String) : Option Response :=
  cacheNSMatch cs CACHE_NAME key

/-! ### Concrete fixtures for witnesses and counterexamples -/

/-- A plain ok same-origin response. -/
def okBasicResponse : Response :=
  { status := 200, type := ResponseType.basic, redirected := false,
    headers := [("Content-Type", "text/html")], body := "cached body" }

/-- A fresher ok same-origin response for the same key. -/
def freshResponse : Response :=
  { status := 200, type := ResponseType.basic, redirected := false,
    headers := [("Content-Type", "text/html")], body := "fresh body" }

/-- An ok same-origin response obtained by following a redirect: the
`redirected` flag is set while the type is still `basic`. -/
def redirectedBasicResponse : Response :=
  { status := 200, type := ResponseType.basic, redirected := true,
    headers := [], body := "redirected body" }

/-- A response stored in a stale (previous-version) cache namespace. -/
def staleResponse : Response :=
  { status := 200, type := ResponseType.basic, redirected := false,
    headers := [], body := "stale body" }

/-- A GET request for `/api/data` without an accept header. -/
def reqApiData : Request :=
  { url := "/api/data", pathname := "/api/data", method := "GET", accept := none }

/-- A POST request to the API route. -/
def reqPostApi : Request :=
  { url := "/api/data", pathname := "/api/data", method := "POST", accept := none }

/-- A navigation GET for `/index.html`. -/
def reqIndexHtml : Request :=
  { url := "/index.html", pathname := "/index.html", method := "GET",
    accept := some "text/html" }

/-- A navigation GET for a page absent from the cache. -/
def reqNewPage : Request :=
  { url := "/new-page.html", pathname := "/new-page.html", method := "GET",
    accept := some "text/html,application/xhtml+xml" }

/-- A GET whose accept header does not include HTML. -/
def reqBinary : Request :=
  { url := "/data.bin", pathname := "/data.bin", method := "GET",
    accept := some "application/octet-stream" }

/-- A GET carrying no accept header at all. -/
def reqNoAccept : Request :=
  { url := "/data.bin", pathname := "/data.bin", method := "GET", accept := none }

/-- A GET for a stylesheet. -/
def reqAppCss : Request :=
  { url := "/app.css", pathname := "/app.css", method := "GET",
    accept := some "text/css" }

/-- Storage whose only entry lives in a stale namespace; the current
namespace does not exist at all. -/
def staleOnlyStorage : CacheStorage :=
  [("anti333-cache-v1", [("/app.css", staleResponse)])]

/-- Storage holding the current namespace with `/index.html` cached. -/
def hitStorage : CacheStorage :=
  [(CACHE_NAME, [("/index.html", okBasicResponse)])]

/-- Storage holding the current namespace with the root document cached. -/
def rootStorage : CacheStorage :=
  [(CACHE_NAME, [("/", okBasicResponse)])]

/-- Storage for the activate scenario: a stale namespace next to the
current one. -/
def activateStorage : CacheStorage :=
  [("anti333-cache-v1", [("/", staleResponse)]), (CACHE_NAME, [("/", okBasicResponse)])]

/-- The always-failing network, request-keyed. -/
def downNetwork : Request → FetchOutcome := fun _ => FetchOutcome.failure

/-- The always-failing network, URL-keyed (install-time fetches). -/
def downUrlNetwork : String → FetchOutcome := fun _ => FetchOutcome.failure

/-- A URL-keyed network answering every fetch with `okBasicResponse`. -/
def okUrlNetwork : String → FetchOutcome := fun _ => FetchOutcome.success okBasicResponse

/-! ### Lemmas about the cache model -/

theorem cacheMatch_cachePut_self (c : Cache) (k : String) (r : Response) :
    cacheMatch (cachePut c k r) k = some r := by
  induction c with
  | nil => simp [cachePut, cacheMatch]
  | cons e rest ih =>
    by_cases h : e.1 = k
    · simp [cachePut, h, cacheMatch]
    · simp [cachePut, h, cacheMatch, ih]

theorem cacheMatch_cachePut_other (c : Cache) (k k2 : String) (r : Response)
    (h : k2 ≠ k) :
    cacheMatch (cachePut c k r) k2 = cacheMatch c k2 := by
  induction c with
  | nil => simp [cachePut, cacheMatch, Ne.symm h]
  | cons e rest ih =>
    by_cases he : e.1 = k
    · simp [cachePut, he, cacheMatch, Ne.symm h]
    · simp [cachePut, he, cacheMatch, ih]

theorem cachesGet_cachesPut_self (cs : CacheStorage) (n k : String) (r : Response) :
    cachesGet (cachesPut cs n k r) n =
      some (cachePut ((cachesGet cs n).getD []) k r) := by
  induction cs with
  | nil => simp [cachesPut, cachesGet]
  | cons e rest ih =>
    by_cases h : e.1 = n
    · simp [cachesPut, h, cachesGet]
    · simp [cachesPut, h, cachesGet, ih]

theorem cacheNSMatch_cachesPut_self (cs : CacheStorage) (n k : String) (r : Response) :
    cacheNSMatch (cachesPut cs n k r) n k = some r := by
  simp [cacheNSMatch, cachesGet_cachesPut_self, cacheMatch_cachePut_self]

theorem cacheNSMatch_cachesPut_other (cs : CacheStorage) (n k k2 : String) (r : Response)
    (h : k2 ≠ k) :
    cacheNSMatch (cachesPut cs n k r) n k2 = cacheNSMatch cs n k2 := by
  simp only [cacheNSMatch, cachesGet_cachesPut_self]
  rw [cacheMatch_cachePut_other _ _ _ _ h]
  cases hg : cachesGet cs n with
  | none => simp [cacheMatch]
  | some c => simp

theorem cachesGet_cachesDelete_self (cs : CacheStorage) (n : String) :
    cachesGet (cachesDelete cs n) n = none := by
  induction cs with
  | nil => simp [cachesDelete, cachesGet]
  | cons e rest ih =>
    by_cases h : e.1 = n
    · simp [cachesDelete, h, ih]
    · simp [cachesDelete, h, cachesGet, ih]

theorem cachesGet_cachesDelete_other (cs : CacheStorage) (n n2 : String)
    (h : n2 ≠ n) :
    cachesGet (cachesDelete cs n) n2 = cachesGet cs n2 := by
  induction cs with
  | nil => simp [cachesDelete]
  | cons e rest ih =>
    by_cases he : e.1 = n
    · simp [cachesDelete, he, cachesGet, Ne.symm h, ih]
    · simp [cachesDelete, he, cachesGet, ih]

theorem cachesGet_foldl_cachesDelete (l : List String) (cs : CacheStorage) (n : String) :
    cachesGet (l.foldl cachesDelete cs) n =
      if n ∈ l then none else cachesGet cs n := by
  induction l generalizing cs with
  | nil => simp
  | cons m rest ih =>
    rw [List.foldl_cons, ih]
    by_cases hmem : n ∈ rest
    · simp [hmem]
    · by_cases hnm : n = m
      · subst hnm
        rw [if_neg hmem, cachesGet_cachesDelete_self]
        simp
      · rw [if_neg hmem, cachesGet_cachesDelete_other _ _ _ hnm]
        simp [List.mem_cons, hmem, hnm]

theorem cachesGet_cachesOpen_fresh (cs : CacheStorage) (n : String)
    (h : cachesGet cs n = none) :
    cachesGet (cachesOpen cs n) n = some [] := by
  induction cs with
  | nil => simp [cachesOpen, cachesGet]
  | cons e rest ih =>
    by_cases he : e.1 = n
    · simp [cachesGet, he] at h
    · simp [cachesGet, he] at h
      simp [cachesOpen, he, cachesGet, ih h]

theorem externalStep_preserves (net : String → FetchOutcome) (cs : CacheStorage)
    (url u : String) (h : u ≠ url) :
    cacheNSMatch (externalStep net cs url) CACHE_NAME u = cacheNSMatch cs CACHE_NAME u := by
  unfold externalStep
  cases net url with
  | success r =>
    by_cases hr : r.ok = true
    · simp [hr, cacheNSMatch_cachesPut_other _ _ _ _ _ h]
    · simp [hr]
  | failure => rfl

theorem foldl_externalStep_preserves (net : String → FetchOutcome) (l : List String)
    (cs : CacheStorage) (u : String) (h : u ∉ l) :
    cacheNSMatch (l.foldl (externalStep net) cs) CACHE_NAME u =
      cacheNSMatch cs CACHE_NAME u := by
  induction l generalizing cs with
  | nil => rfl
  | cons x rest ih =>
    simp only [List.mem_cons, not_or] at h
    rw [List.foldl_cons, ih _ h.2, externalStep_preserves _ _ _ _ h.1]

theorem foldl_externalStep_mem (net : String → FetchOutcome) (l : List String)
    (cs : CacheStorage) (u : String) (r : Response)
    (hnd : l.Nodup) (hmem : u ∈ l) (hr : net u = .success r) (hok : r.ok = true) :
    cacheNSMatch (l.foldl (externalStep net) cs) CACHE_NAME u = some r := by
  induction l generalizing cs with
  | nil => simp at hmem
  | cons x rest ih =>
    rw [List.nodup_cons] at hnd
    rw [List.mem_cons] at hmem
    rcases hmem with hux | hurest
    · subst hux
      rw [List.foldl_cons, foldl_externalStep_preserves _ _ _ _ hnd.1]
      simp [externalStep, hr, hok, cacheNSMatch_cachesPut_self]
    · rw [List.foldl_cons]
      exact ih _ hnd.2 hurest

/-! ### Claim theorems -/

/-- C1: for an intercepted GET request whose path starts with `/api/`,
a failed network fetch yields (is returned, not thrown) the synthesized
503 substitute with JSON content type and a JSON body whose `error`
field is the localized offline message, for any prior cache contents;
a successful fetch is returned verbatim and the cache is never written. -/
theorem api_network_only (net : Request → FetchOutcome) (cs : CacheStorage) (req : Request)
    (hm : req.method = "GET") (hapi : strStartsWith req.pathname "/api/" = true) :
    (net req = .failure →
        handleFetch net cs req = (.respond apiOfflineResponse, cs) ∧
        apiOfflineResponse.status = 503 ∧
        headersGet apiOfflineResponse.headers "Content-Type" = some "application/json" ∧
        apiOfflineResponse.body = jsonErrorBody OFFLINE_MESSAGE) ∧
    (∀ r, net req = .success r → handleFetch net cs req = (.respond r, cs)) := by
  constructor
  · intro hfail
    refine ⟨?_, rfl, by decide, rfl⟩
    simp [handleFetch, hm, hapi, hfail]
  · intro r hr
    simp [handleFetch, hm, hapi, hr]

/-- Witness for `api_network_only`: the offline `/api/data` scenario. -/
theorem api_network_only_witness :
    handleFetch downNetwork [] reqApiData = (.respond apiOfflineResponse, []) :=
  ((api_network_only downNetwork [] reqApiData rfl (by decide)).1 rfl).1

/-- C9: a request whose method is not GET is not intercepted: the
handler leaves default browser handling in place and neither reads nor
writes the cache storage. -/
theorem nonget_passthrough (net : Request → FetchOutcome) (cs : CacheStorage) (req : Request)
    (hm : req.method ≠ "GET") :
    handleFetch net cs req = (.passThrough, cs) := by
  unfold handleFetch
  rw [if_pos hm]

/-- Witness for `nonget_passthrough`: a POST request passes through. -/
theorem nonget_passthrough_witness :
    handleFetch downNetwork staleOnlyStorage reqPostApi = (.passThrough, staleOnlyStorage) :=
  nonget_passthrough downNetwork staleOnlyStorage reqPostApi (by decide)

/-- C10 (implicit): a GET non-API request that misses the cache, whose
network fetch fails, and that carries no accept header makes the catch
clause read `null` and call `includes` on it: the handler promise
rejects with a type error — neither a fallback response nor the original
network failure. -/
theorem missing_accept_type_error (net : Request → FetchOutcome) (cs : CacheStorage) (req : Request)
    (hm : req.method = "GET") (hapi : strStartsWith req.pathname "/api/" = false)
    (hmiss : cachesMatch cs req.url = none) (hfail : net req = .failure)
    (hacc : req.accept = none) :
    handleFetch net cs req = (.reject JsError.typeError, cs) := by
  simp [handleFetch, hm, hapi, hmiss, hfail, hacc]

/-- Witness for `missing_accept_type_error`: `/data.bin` with no accept
header, empty cache, network down. -/
theorem missing_accept_type_error_witness :
    handleFetch downNetwork [] reqNoAccept = (.reject JsError.typeError, []) :=
  missing_accept_type_error downNetwork [] reqNoAccept rfl (by decide) rfl rfl rfl

/-- C2: on a cache hit the cached response is the caller-visible result
for every network environment (so it does not wait on, and cannot depend
on, the revalidation outcome); the storage afterward is exactly the
background revalidation's effect: an ok fresh response overwrites the
entry under the same key in the current namespace, and a failed
background fetch surfaces no error and leaves the storage unchanged. -/
theorem cache_hit_stale_while_revalidate (net : Request → FetchOutcome) (cs : CacheStorage)
    (req : Request) (cached : Response)
    (hm : req.method = "GET") (hapi : strStartsWith req.pathname "/api/" = false)
    (hhit : cachesMatch cs req.url = some cached) :
    (handleFetch net cs req).1 = .respond cached ∧
    (handleFetch net cs req).2 = revalidate net cs req ∧
    (∀ r, net req = .success r → r.ok = true →
        cacheNSMatch (handleFetch net cs req).2 CACHE_NAME req.url = some r) ∧
    (net req = .failure → (handleFetch net cs req).2 = cs) := by
  have hbr : handleFetch net cs req = (.respond cached, revalidate net cs req) := by
    simp [handleFetch, hm, hapi, hhit]
  refine ⟨by rw [hbr], by rw [hbr], ?_, ?_⟩
  · intro r hr hok
    rw [hbr]
    simp [revalidate, hr, hok, cacheNSMatch_cachesPut_self]
  · intro hfail
    rw [hbr]
    simp [revalidate, hfail]

/-- Witness for `cache_hit_stale_while_revalidate`: `/index.html` cached
and reachable — the stale body is served and the fresh body replaces it. -/
theorem cache_hit_witness :
    (handleFetch (fun _ => FetchOutcome.success freshResponse) hitStorage reqIndexHtml).1
        = .respond okBasicResponse ∧
    cacheNSMatch
        (handleFetch (fun _ => FetchOutcome.success freshResponse) hitStorage reqIndexHtml).2
        CACHE_NAME "/index.html" = some freshResponse := by
  have h := cache_hit_stale_while_revalidate (fun _ => FetchOutcome.success freshResponse)
    hitStorage reqIndexHtml okBasicResponse rfl (by decide) (by decide)
  exact ⟨h.1, h.2.2.1 freshResponse rfl (by decide)⟩

/-- C8 (amended): the hit-or-miss lookup is `caches.match`, which
searches every namespace in creation order — a request found in any
namespace is served from the cache even when the current version's
namespace does not contain it. -/
theorem lookup_searches_all_namespaces (net : Request → FetchOutcome) (cs : CacheStorage)
    (req : Request) (r : Response)
    (hm : req.method = "GET") (hapi : strStartsWith req.pathname "/api/" = false)
    (hcur : cacheNSMatch cs CACHE_NAME req.url = none)
    (hhit : cachesMatch cs req.url = some r) :
    (handleFetch net cs req).1 = .respond r := by
  simp [handleFetch, hm, hapi, hhit]

/-- Witness for `lookup_searches_all_namespaces`: an entry that exists
only in the stale `anti333-cache-v1` namespace is served as a hit. -/
theorem lookup_searches_all_namespaces_witness :
    (handleFetch downNetwork staleOnlyStorage reqAppCss).1 = .respond staleResponse :=
  lookup_searches_all_namespaces downNetwork staleOnlyStorage reqAppCss staleResponse
    rfl (by decide) (by decide) (by decide)

/-- Counterexample to C8 as stated: in `staleOnlyStorage` the spec's
lookup ("the current cache namespace" only) misses, yet the handler
serves the stale namespace's entry as a cache hit, and the current
namespace does not even exist. -/
theorem lookup_counterexample :
    specCurrentOnlyLookup staleOnlyStorage reqAppCss.url = none ∧
    cachesGet staleOnlyStorage CACHE_NAME = none ∧
    (handleFetch downNetwork staleOnlyStorage reqAppCss).1 = .respond staleResponse := by
  decide

/-- Counterexample to C4 as stated: `/data.bin` absent from the cache,
network down, accept header declared but without `text/html` — the
handler promise does not reject; the catch clause swallows the failure
and resolves with `undefined` (no response at all). -/
theorem cold_miss_failure_counterexample :
    handleFetch downNetwork [] reqBinary = (.respondUndefined, []) ∧
    (handleFetch downNetwork [] reqBinary).1.isRejection = false := by
  decide

/-- C4 (amended): for a GET non-API request absent from the cache whose
network fetch fails, with a declared accept header: if it includes
`text/html` the handler answers with the result of looking `/` up in the
caches (the cached root document when present, `undefined` otherwise);
otherwise the handler resolves with `undefined` — in neither case does
the failure propagate as a rejection, and the storage is unchanged. -/
theorem cold_miss_failure_fallback (net : Request → FetchOutcome) (cs : CacheStorage)
    (req : Request) (a : String)
    (hm : req.method = "GET") (hapi : strStartsWith req.pathname "/api/" = false)
    (hmiss : cachesMatch cs req.url = none) (hfail : net req = .failure)
    (hacc : req.accept = some a) :
    (handleFetch net cs req).2 = cs ∧
    (handleFetch net cs req).1.isRejection = false ∧
    (jsIncludes a "text/html" = true →
        (∀ root, cachesMatch cs "/" = some root →
            (handleFetch net cs req).1 = .respond root) ∧
        (cachesMatch cs "/" = none →
            (handleFetch net cs req).1 = .respondUndefined)) ∧
    (jsIncludes a "text/html" = false →
        (handleFetch net cs req).1 = .respondUndefined) := by
  have hbr : handleFetch net cs req =
      (if jsIncludes a "text/html" then
          match cachesMatch cs "/" with
          | some root => (.respond root, cs)
          | none => (.respondUndefined, cs)
        else (.respondUndefined, cs)) := by
    simp [handleFetch, hm, hapi, hmiss, hfail, hacc]
  by_cases hhtml : jsIncludes a "text/html" = true
  · rw [hbr, if_pos hhtml]
    cases hroot : cachesMatch cs "/" with
    | some root =>
      refine ⟨rfl, rfl, fun _ => ⟨fun r hr => ?_, fun hn => ?_⟩, fun hfalse => ?_⟩
      · cases hr
        rfl
      · cases hn
      · rw [hhtml] at hfalse
        cases hfalse
    | none =>
      refine ⟨rfl, rfl, fun _ => ⟨fun r hr => ?_, fun _ => rfl⟩, fun _ => rfl⟩
      cases hr
  · rw [hbr, if_neg hhtml]
    refine ⟨rfl, rfl, fun htrue => absurd htrue hhtml, fun _ => rfl⟩

/-- Witness for `cold_miss_failure_fallback`: the spec's own scenario —
`/new-page.html` absent, network down, accept includes `text/html`, and
the cached root document is served — plus the undefined non-HTML case. -/
theorem cold_miss_failure_fallback_witness :
    (handleFetch downNetwork rootStorage reqNewPage).1 = .respond okBasicResponse ∧
    (handleFetch downNetwork rootStorage reqBinary).1 = .respondUndefined := by
  have h1 := cold_miss_failure_fallback downNetwork rootStorage reqNewPage
    "text/html,application/xhtml+xml" rfl (by decide) (by decide) rfl rfl
  have h2 := cold_miss_failure_fallback downNetwork rootStorage reqBinary
    "application/octet-stream" rfl (by decide) (by decide) rfl rfl
  exact ⟨(h1.2.2.1 (by decide)).1 okBasicResponse (by decide), h2.2.2.2 (by decide)⟩

/-- Counterexample to C5 as stated: a same-origin ok response reached by
following a redirect has the `redirected` flag set, so the spec's
"direct, non-opaque, non-redirected" condition excludes it — yet the
cache-miss branch stores it (the code tests only `ok` and type `basic`,
never `redirected`). -/
theorem cache_miss_store_counterexample :
    specCacheable redirectedBasicResponse = false ∧
    redirectedBasicResponse.ok = true ∧
    cacheNSMatch
        (handleFetch (fun _ => FetchOutcome.success redirectedBasicResponse) [] reqAppCss).2
        CACHE_NAME reqAppCss.url = some redirectedBasicResponse := by
  decide

/-- C5 (amended): for a GET non-API request absent from the cache whose
network fetch resolves, the response is returned to the caller, and a
copy is stored under the request identity in the current namespace if
and only if the response is ok and of type `basic` (same-origin,
non-opaque); the `redirected` flag is not consulted, so redirected
same-origin responses are cached too, and when the condition fails the
storage is unchanged. -/
theorem cache_miss_store_condition (net : Request → FetchOutcome) (cs : CacheStorage)
    (req : Request) (r : Response)
    (hm : req.method = "GET") (hapi : strStartsWith req.pathname "/api/" = false)
    (hmiss : cachesMatch cs req.url = none) (hr : net req = .success r) :
    (handleFetch net cs req).1 = .respond r ∧
    (r.ok = true → r.type = ResponseType.basic →
        cacheNSMatch (handleFetch net cs req).2 CACHE_NAME req.url = some r) ∧
    (¬(r.ok = true ∧ r.type = ResponseType.basic) →
        (handleFetch net cs req).2 = cs) := by
  by_cases hcond : r.ok = true ∧ r.type = ResponseType.basic
  · have hbr : handleFetch net cs req =
        (.respond r, cachesPut cs CACHE_NAME req.url r.clone) := by
      simp [handleFetch, hm, hapi, hmiss, hr, hcond.1, hcond.2]
    refine ⟨by rw [hbr], fun _ _ => ?_, fun hn => absurd hcond hn⟩
    rw [hbr]
    simp [Response.clone, cacheNSMatch_cachesPut_self]
  · have hbr : handleFetch net cs req = (.respond r, cs) := by
      simp only [handleFetch, hm, hapi, hmiss, hr]
      simp [hcond]
    exact ⟨by rw [hbr], fun hok htype => absurd ⟨hok, htype⟩ hcond, fun _ => by rw [hbr]⟩

/-- Witness for `cache_miss_store_condition`: a cold fetch of
`/index.html` returns the fresh response and stores it. -/
theorem cache_miss_store_condition_witness :
    (handleFetch (fun _ => FetchOutcome.success freshResponse) [] reqIndexHtml).1
        = .respond freshResponse ∧
    cacheNSMatch (handleFetch (fun _ => FetchOutcome.success freshResponse) [] reqIndexHtml).2
        CACHE_NAME "/index.html" = some freshResponse := by
  have h := cache_miss_store_condition (fun _ => FetchOutcome.success freshResponse)
    [] reqIndexHtml freshResponse rfl (by decide) rfl rfl
  exact ⟨h.1, h.2.1 (by decide) rfl⟩

/-- C3: install is all-or-nothing on the static list.  On a fresh
install (the current namespace does not exist yet): if any static asset
fetch fails or returns a non-ok response, the install step fails and the
current namespace holds no entry at all (in particular none from the
static list), and only the static assets were fetched — the external
assets are never attempted.  Conversely, when every static asset fetch
is ok, the externals are attempted, after the statics. -/
theorem install_all_or_nothing (net : String → FetchOutcome) (cs : CacheStorage)
    (hfresh : cachesGet cs CACHE_NAME = none) :
    (∀ s ∈ STATIC_ASSETS, fetchOk (net s) = false →
        (installHandler net cs).success = false ∧
        (∀ t, cacheNSMatch (installHandler net cs).caches CACHE_NAME t = none) ∧
        (installHandler net cs).fetched = STATIC_ASSETS) ∧
    ((∀ s ∈ STATIC_ASSETS, fetchOk (net s) = true) →
        (installHandler net cs).fetched = STATIC_ASSETS ++ EXTERNAL_ASSETS) := by
  constructor
  · intro s hs hsf
    have hall : STATIC_ASSETS.all (fun u => fetchOk (net u)) = false := by
      cases hcase : STATIC_ASSETS.all (fun u => fetchOk (net u)) with
      | false => rfl
      | true =>
        have := List.all_eq_true.mp hcase s hs
        rw [hsf] at this
        cases this
    have haddAll :
        addAll net ((cachesGet (cachesOpen cs CACHE_NAME) CACHE_NAME).getD [])
          STATIC_ASSETS = none := by
      unfold addAll
      rw [hall]
      simp
    refine ⟨?_, ?_, ?_⟩ <;> simp only [installHandler, haddAll]
    · intro t
      simp [cacheNSMatch, cachesGet_cachesOpen_fresh cs CACHE_NAME hfresh, cacheMatch]
  · intro hok
    have hall : STATIC_ASSETS.all (fun u => fetchOk (net u)) = true :=
      List.all_eq_true.mpr hok
    obtain ⟨c1, hc1⟩ :
        ∃ c1, addAll net ((cachesGet (cachesOpen cs CACHE_NAME) CACHE_NAME).getD [])
          STATIC_ASSETS = some c1 := by
      unfold addAll
      rw [hall]
      exact ⟨_, rfl⟩
    simp only [installHandler, hc1]

/-- Witness for `install_all_or_nothing`: with the network down the
install fails, the namespace stays empty, and no external asset is
fetched; with the network up, externals follow the statics. -/
theorem install_all_or_nothing_witness :
    (installHandler downUrlNetwork []).success = false ∧
    cacheNSMatch (installHandler downUrlNetwork []).caches CACHE_NAME "/manifest.json" = none ∧
    (installHandler downUrlNetwork []).fetched = STATIC_ASSETS ∧
    (installHandler okUrlNetwork []).fetched = STATIC_ASSETS ++ EXTERNAL_ASSETS := by
  have hdown := (install_all_or_nothing downUrlNetwork [] rfl).1 "/manifest.json"
    (by decide) rfl
  have hup := (install_all_or_nothing okUrlNetwork [] rfl).2 (by decide)
  exact ⟨hdown.1, hdown.2.1 "/manifest.json", hdown.2.2, hup⟩

/-- C7: each external asset is handled independently during install:
whatever the network does on every other URL, as long as the static
assets all succeed the install step succeeds (external failures are
swallowed), every external URL is attempted (all attempts settle), and
an external URL answered with an ok response ends up cached under its
URL in the current namespace. -/
theorem install_externals_independent (net : String → FetchOutcome) (cs : CacheStorage)
    (u : String) (r : Response)
    (hstat : ∀ s ∈ STATIC_ASSETS, fetchOk (net s) = true)
    (hu : u ∈ EXTERNAL_ASSETS) (hr : net u = .success r) (hok : r.ok = true) :
    (installHandler net cs).success = true ∧
    cacheNSMatch (installHandler net cs).caches CACHE_NAME u = some r ∧
    (installHandler net cs).fetched = STATIC_ASSETS ++ EXTERNAL_ASSETS := by
  have hall : STATIC_ASSETS.all (fun s => fetchOk (net s)) = true :=
    List.all_eq_true.mpr hstat
  obtain ⟨c1, hc1⟩ :
      ∃ c1, addAll net ((cachesGet (cachesOpen cs CACHE_NAME) CACHE_NAME).getD [])
        STATIC_ASSETS = some c1 := by
    unfold addAll
    rw [hall]
    exact ⟨_, rfl⟩
  have hnd : EXTERNAL_ASSETS.Nodup := by decide
  refine ⟨?_, ?_, ?_⟩ <;> simp only [installHandler, hc1]
  exact foldl_externalStep_mem net EXTERNAL_ASSETS _ u r hnd hu hr hok

/-- Witness for `install_externals_independent`: a network that answers
only the static assets and one external URL, failing every other
external, still installs successfully and caches that URL. -/
theorem install_externals_independent_witness :
    (installHandler
        (fun s => if s ∈ STATIC_ASSETS ∨ s = "https://unpkg.com/docx@8.5.0/build/index.umd.js"
          then FetchOutcome.success okBasicResponse else FetchOutcome.failure) []).success
      = true ∧
    cacheNSMatch
        (installHandler
          (fun s => if s ∈ STATIC_ASSETS ∨ s = "https://unpkg.com/docx@8.5.0/build/index.umd.js"
            then FetchOutcome.success okBasicResponse else FetchOutcome.failure) []).caches
        CACHE_NAME "https://unpkg.com/docx@8.5.0/build/index.umd.js"
      = some okBasicResponse := by
  have h := install_externals_independent
    (fun s => if s ∈ STATIC_ASSETS ∨ s = "https://unpkg.com/docx@8.5.0/build/index.umd.js"
      then FetchOutcome.success okBasicResponse else FetchOutcome.failure)
    [] "https://unpkg.com/docx@8.5.0/build/index.umd.js" okBasicResponse
    (by decide) (by decide) (by decide) (by decide)
  exact ⟨h.1, h.2.1⟩

/-- C6: after activate, every namespace name present before that differs
from `CACHE_NAME` is gone, the current namespace is still present with
its contents untouched, and the performed actions are all the deletions
followed — last — by claiming the clients. -/
theorem activate_cleanup (cs : CacheStorage) (cur : Cache)
    (hcur : cachesGet cs CACHE_NAME = some cur) :
    (∀ n, n ∈ cachesKeys cs → n ≠ CACHE_NAME →
        cachesGet (activateHandler cs).1 n = none) ∧
    cachesGet (activateHandler cs).1 CACHE_NAME = some cur ∧
    (activateHandler cs).2 =
      ((cachesKeys cs).filter (fun n => n != CACHE_NAME)).map ActEvent.deleteCache
        ++ [ActEvent.claimClients] := by
  refine ⟨?_, ?_, rfl⟩
  · intro n hn hne
    simp only [activateHandler]
    rw [cachesGet_foldl_cachesDelete, if_pos]
    exact List.mem_filter.mpr ⟨hn, by simp [hne]⟩
  · simp only [activateHandler]
    rw [cachesGet_foldl_cachesDelete, if_neg, hcur]
    intro hmem
    have := (List.mem_filter.mp hmem).2
    simp at this

/-- Witness for `activate_cleanup`: the stale `anti333-cache-v1`
namespace is deleted, the current one keeps its root entry, and the
claim action comes after the deletion. -/
theorem activate_cleanup_witness :
    cachesGet (activateHandler activateStorage).1 "anti333-cache-v1" = none ∧
    cachesGet (activateHandler activateStorage).1 CACHE_NAME = some [("/", okBasicResponse)] ∧
    (activateHandler activateStorage).2 =
      [ActEvent.deleteCache "anti333-cache-v1", ActEvent.claimClients] := by
  have h := activate_cleanup activateStorage [("/", okBasicResponse)] (by decide)
  refine ⟨h.1 "anti333-cache-v1" (by decide) (by decide), h.2.1, by decide⟩
